import Mathlib

/-!
Verification of the meeting transcription pipeline glue code.

The definitions below are a shallow embedding of the TypeScript source:
JavaScript objects (`Record<string, string>`) become association lists
`List (String × String)` in key insertion order, JavaScript string
truthiness (`""` is falsy) is modelled explicitly, and the Firestore
read/update cycle becomes explicit state passing.
-/

set_option autoImplicit false

namespace LazyDevs

/-- One utterance of the stored transcript (source: interface
`TranscriptSegment` in the Firestore helper module). -/
structure TranscriptSegment where
  speaker : String
  text : String
  start_ms : Int
  end_ms : Int
deriving DecidableEq

/-- One unresolved speaker entry (source: interface `UnresolvedSpeaker`;
the audio snippet field is optional there). -/
structure UnresolvedSpeaker where
  label : String
  audio_snippet_b64 : Option String
deriving DecidableEq

/-- A JavaScript `Record<string, string>` in key insertion order. -/
abbrev SpeakerMap := List (String × String)

/-- Property access `m[k]` on a JavaScript object: the value at the first
matching key, or `none` for `undefined`. -/
def lookupStr : SpeakerMap → String → Option String
  | [], _ => none
  | p :: rest, k => if p.1 = k then some p.2 else lookupStr rest k

/-- JavaScript truthiness of `m[k]` for a string-valued object: `undefined`
and `""` are falsy. -/
def truthyOpt : Option String → Bool
  | none => false
  | some s => !(s == "")

/-- The JavaScript expression `v || fallbackVal` for `v = m[k]`:
`undefined` and `""` select the fallback. -/
def jsOrStr (v : Option String) (fallbackVal : String) : String :=
  match v with
  | some s => if s = "" then fallbackVal else s
  | none => fallbackVal

/-- The JavaScript assignment `m[k] = v`: overwrite the value of an
existing key in place, otherwise append the new key. -/
def objSet (m : SpeakerMap) (k v : String) : SpeakerMap :=
  if (lookupStr m k).isSome then
    m.map (fun p => if p.1 = k then (k, v) else p)
  else
    m ++ [(k, v)]

/-- A stored meeting document restricted to the fields the speaker
resolution update reads and writes. -/
@[ext]
structure MeetingDoc where
  transcript : List TranscriptSegment
  speakerMap : SpeakerMap
  unresolvedSpeakers : List UnresolvedSpeaker
  unresolvedCount : Nat
deriving DecidableEq

/-- Source: `updateMeetingSpeakers`, transcript rewrite
`speaker: speakerResolutions[segment.speaker] || segment.speaker`. -/
def resolveSpeaker (speakerResolutions : SpeakerMap) (s : String) : String :=
  jsOrStr (lookupStr speakerResolutions s) s

/-- Source: `updateMeetingSpeakers`, `transcript.map(segment => ({...segment,
speaker: speakerResolutions[segment.speaker] || segment.speaker}))`. -/
def applyResolutionsToTranscript (speakerResolutions : SpeakerMap)
    (transcript : List TranscriptSegment) : List TranscriptSegment :=
  transcript.map fun segment =>
    { segment with speaker := resolveSpeaker speakerResolutions segment.speaker }

/-- Source: `updateMeetingSpeakers`, `Object.keys(speakerResolutions)
.forEach(oldLabel => { updatedSpeakerMap[oldLabel] =
speakerResolutions[oldLabel] })` on a copy of the stored map. -/
def applyResolutionsToMap (speakerResolutions : SpeakerMap)
    (speakerMap : SpeakerMap) : SpeakerMap :=
  speakerResolutions.foldl (fun acc p => objSet acc p.1 p.2) speakerMap

/-- Source: `updateMeetingSpeakers`, `unresolvedSpeakers.filter(speaker =>
!speakerResolutions[speaker.label])`. -/
def applyResolutionsToUnresolved (speakerResolutions : SpeakerMap)
    (unresolvedSpeakers : List UnresolvedSpeaker) : List UnresolvedSpeaker :=
  unresolvedSpeakers.filter fun u =>
    !(truthyOpt (lookupStr speakerResolutions u.label))

/-- The pure state transformation performed by `updateMeetingSpeakers`
between reading the meeting document and writing it back: rewrite the
transcript speakers, merge the resolutions into the speaker map, drop the
resolved entries from the unresolved list, refresh `unresolvedCount`. -/
def updateMeetingSpeakers (speakerResolutions : SpeakerMap)
    (doc : MeetingDoc) : MeetingDoc :=
  { transcript := applyResolutionsToTranscript speakerResolutions doc.transcript
    speakerMap := applyResolutionsToMap speakerResolutions doc.speakerMap
    unresolvedSpeakers :=
      applyResolutionsToUnresolved speakerResolutions doc.unresolvedSpeakers
    unresolvedCount :=
      (applyResolutionsToUnresolved speakerResolutions doc.unresolvedSpeakers).length }

/-! Association-list lemmas about JavaScript object access and assignment. -/

theorem list_map_eq_self {α : Type} {l : List α} {f : α → α}
    (h : ∀ x ∈ l, f x = x) : l.map f = l := by
  induction l with
  | nil => rfl
  | cons a t ih =>
    rw [List.map_cons, h a (List.mem_cons_self a t),
      ih (fun x hx => h x (List.mem_cons_of_mem a hx))]

theorem list_map_congr {α β : Type} {l : List α} {f g : α → β}
    (h : ∀ x ∈ l, f x = g x) : l.map f = l.map g := by
  induction l with
  | nil => rfl
  | cons a t ih =>
    rw [List.map_cons, List.map_cons, h a (List.mem_cons_self a t),
      ih (fun x hx => h x (List.mem_cons_of_mem a hx))]

theorem lookupStr_eq_none {m : SpeakerMap} {k : String} :
    lookupStr m k = none ↔ k ∉ m.map Prod.fst := by
  induction m with
  | nil => simp [lookupStr]
  | cons p rest ih =>
    by_cases h : p.1 = k
    · simp [lookupStr, h]
    · simp [lookupStr, h, ih, Ne.symm h]

theorem lookupStr_mem {m : SpeakerMap} {k v : String}
    (h : lookupStr m k = some v) : (k, v) ∈ m := by
  induction m with
  | nil => simp [lookupStr] at h
  | cons p rest ih =>
    by_cases hp : p.1 = k
    · rw [lookupStr, if_pos hp] at h
      injection h with h
      have hpkv : p = (k, v) := by
        cases p
        simp only [Prod.mk.injEq]
        exact ⟨hp, h⟩
      exact List.mem_cons.mpr (Or.inl hpkv.symm)
    · rw [lookupStr, if_neg hp] at h
      exact List.mem_cons_of_mem _ (ih h)

theorem lookupStr_isSome_of_mem {m : SpeakerMap} {k v : String}
    (h : (k, v) ∈ m) : (lookupStr m k).isSome := by
  induction m with
  | nil => cases h
  | cons p rest ih =>
    by_cases hp : p.1 = k
    · rw [lookupStr, if_pos hp]; rfl
    · rw [lookupStr, if_neg hp]
      rcases List.mem_cons.mp h with h2 | h2
      · exact absurd (congrArg Prod.fst h2.symm) hp
      · exact ih h2

theorem mem_objSet {m : SpeakerMap} {k v : String} {p : String × String}
    (h : p ∈ objSet m k v) : p = (k, v) ∨ (p ∈ m ∧ p.1 ≠ k) := by
  by_cases hs : (lookupStr m k).isSome
  · rw [objSet, if_pos hs] at h
    rcases List.mem_map.mp h with ⟨q, hq, hfq⟩
    by_cases hqk : q.1 = k
    · left; rw [if_pos hqk] at hfq; exact hfq.symm
    · right; rw [if_neg hqk] at hfq; rw [← hfq]; exact ⟨hq, hqk⟩
  · rw [objSet, if_neg hs] at h
    rcases List.mem_append.mp h with h1 | h1
    · right
      refine ⟨h1, fun hk => hs ?_⟩
      have hmem : (k, p.2) ∈ m := by rw [← hk]; exact h1
      exact lookupStr_isSome_of_mem hmem
    · left; simpa using h1

theorem objSet_mem_self (m : SpeakerMap) (k v : String) :
    (k, v) ∈ objSet m k v := by
  by_cases hs : (lookupStr m k).isSome
  · rw [objSet, if_pos hs]
    obtain ⟨w, hw⟩ := Option.isSome_iff_exists.mp hs
    exact List.mem_map.mpr ⟨(k, w), lookupStr_mem hw, by simp⟩
  · rw [objSet, if_neg hs]
    exact List.mem_append_right _ (by simp)

theorem mem_objSet_of_ne {m : SpeakerMap} {p : String × String} (k v : String)
    (h : p ∈ m) (hne : p.1 ≠ k) : p ∈ objSet m k v := by
  by_cases hs : (lookupStr m k).isSome
  · rw [objSet, if_pos hs]
    exact List.mem_map.mpr ⟨p, h, by rw [if_neg hne]⟩
  · rw [objSet, if_neg hs]
    exact List.mem_append_left _ h

theorem keys_objSet (m : SpeakerMap) (k v : String) :
    (objSet m k v).map Prod.fst =
      if (lookupStr m k).isSome then m.map Prod.fst
      else m.map Prod.fst ++ [k] := by
  by_cases hs : (lookupStr m k).isSome
  · rw [objSet, if_pos hs, if_pos hs, List.map_map]
    apply list_map_congr
    intro p _
    by_cases hpk : p.1 = k
    · simp [hpk]
    · simp [hpk]
  · rw [objSet, if_neg hs, if_neg hs, List.map_append]
    rfl

theorem nodup_keys_objSet {m : SpeakerMap} (k v : String)
    (h : (m.map Prod.fst).Nodup) : ((objSet m k v).map Prod.fst).Nodup := by
  rw [keys_objSet]
  by_cases hs : (lookupStr m k).isSome
  · rw [if_pos hs]; exact h
  · rw [if_neg hs]
    have hk : k ∉ m.map Prod.fst :=
      lookupStr_eq_none.mp (Option.not_isSome_iff_eq_none.mp hs)
    simp [List.nodup_append, h, hk]

theorem applyResolutionsToMap_cons (q : String × String) (rest m : SpeakerMap) :
    applyResolutionsToMap (q :: rest) m =
      applyResolutionsToMap rest (objSet m q.1 q.2) := rfl

theorem mem_applyResolutionsToMap {res m : SpeakerMap} {p : String × String}
    (h : p ∈ applyResolutionsToMap res m) :
    p ∈ res ∨ (p ∈ m ∧ p.1 ∉ res.map Prod.fst) := by
  induction res generalizing m with
  | nil => right; exact ⟨h, by simp⟩
  | cons q rest ih =>
    rw [applyResolutionsToMap_cons] at h
    rcases ih h with h1 | ⟨h2, h3⟩
    · exact Or.inl (List.mem_cons_of_mem _ h1)
    · rcases mem_objSet h2 with h4 | ⟨h5, h6⟩
      · left
        rw [h4.trans (Prod.mk.eta)]
        exact List.mem_cons_self _ _
      · right
        refine ⟨h5, fun hc => ?_⟩
        simp only [List.map_cons, List.mem_cons] at hc
        rcases hc with hc1 | hc2
        · exact h6 hc1
        · exact h3 hc2

theorem mem_applyResolutionsToMap_of_mem {res m : SpeakerMap}
    {p : String × String} (h : p ∈ m) (hk : p.1 ∉ res.map Prod.fst) :
    p ∈ applyResolutionsToMap res m := by
  induction res generalizing m with
  | nil => exact h
  | cons q rest ih =>
    rw [applyResolutionsToMap_cons]
    have h1 : p.1 ≠ q.1 := by
      intro hc; apply hk
      rw [List.map_cons]
      exact List.mem_cons.mpr (Or.inl hc)
    have h2 : p.1 ∉ rest.map Prod.fst := by
      intro hc; apply hk
      rw [List.map_cons]
      exact List.mem_cons.mpr (Or.inr hc)
    exact ih (mem_objSet_of_ne _ _ h h1) h2

theorem mem_applyResolutionsToMap_of_mem_res {res : SpeakerMap}
    (hnd : (res.map Prod.fst).Nodup) (m : SpeakerMap) {p : String × String}
    (hp : p ∈ res) : p ∈ applyResolutionsToMap res m := by
  induction res generalizing m with
  | nil => cases hp
  | cons q rest ih =>
    rw [List.map_cons, List.nodup_cons] at hnd
    rw [applyResolutionsToMap_cons]
    rcases List.mem_cons.mp hp with h2 | h2
    · rw [h2]
      exact mem_applyResolutionsToMap_of_mem (objSet_mem_self m q.1 q.2) hnd.1
    · exact ih hnd.2 _ h2

theorem keys_applyResolutionsToMap (res m : SpeakerMap) (a : String) :
    a ∈ (applyResolutionsToMap res m).map Prod.fst ↔
      a ∈ m.map Prod.fst ∨ a ∈ res.map Prod.fst := by
  induction res generalizing m with
  | nil => simp [applyResolutionsToMap]
  | cons q rest ih =>
    rw [applyResolutionsToMap_cons, ih, keys_objSet]
    by_cases hs : (lookupStr m q.1).isSome
    · rw [if_pos hs]
      have hmem : q.1 ∈ m.map Prod.fst := by
        by_contra hc
        rw [← lookupStr_eq_none] at hc
        simp [hc] at hs
      simp only [List.map_cons, List.mem_cons]
      constructor
      · rintro (h | h)
        · exact Or.inl h
        · exact Or.inr (Or.inr h)
      · rintro (h | rfl | h)
        · exact Or.inl h
        · exact Or.inl hmem
        · exact Or.inr h
    · rw [if_neg hs]
      simp only [List.mem_append, List.map_cons, List.mem_cons,
        List.mem_singleton]
      tauto

theorem nodup_keys_applyResolutionsToMap (res : SpeakerMap) {m : SpeakerMap}
    (h : (m.map Prod.fst).Nodup) :
    ((applyResolutionsToMap res m).map Prod.fst).Nodup := by
  induction res generalizing m with
  | nil => exact h
  | cons q rest ih =>
    rw [applyResolutionsToMap_cons]
    exact ih (nodup_keys_objSet _ _ h)

theorem mem_unique_of_nodup {m : SpeakerMap}
    (hnd : (m.map Prod.fst).Nodup) {k v w : String}
    (h1 : (k, v) ∈ m) (h2 : (k, w) ∈ m) : v = w := by
  induction m with
  | nil => cases h1
  | cons p rest ih =>
    rw [List.map_cons, List.nodup_cons] at hnd
    rcases List.mem_cons.mp h1 with e1 | h1r
    · rcases List.mem_cons.mp h2 with e2 | h2r
      · injection e1.trans e2.symm with hk hv
      · exfalso
        apply hnd.1
        rw [← e1]
        exact List.mem_map.mpr ⟨(k, w), h2r, rfl⟩
    · rcases List.mem_cons.mp h2 with e2 | h2r
      · exfalso
        apply hnd.1
        rw [← e2]
        exact List.mem_map.mpr ⟨(k, v), h1r, rfl⟩
      · exact ih hnd.2 h1r h2r

theorem objSet_self_of_mem {m : SpeakerMap}
    (hnd : (m.map Prod.fst).Nodup) {k v : String} (h : (k, v) ∈ m) :
    objSet m k v = m := by
  rw [objSet, if_pos (lookupStr_isSome_of_mem h)]
  apply list_map_eq_self
  intro p hp
  by_cases hpk : p.1 = k
  · rw [if_pos hpk]
    have h2 : (k, p.2) ∈ m := by rw [← hpk]; exact hp
    rw [mem_unique_of_nodup hnd h h2, ← hpk]
  · rw [if_neg hpk]

theorem applyResolutionsToMap_self {res M : SpeakerMap}
    (hndM : (M.map Prod.fst).Nodup) (hsub : ∀ p ∈ res, p ∈ M) :
    applyResolutionsToMap res M = M := by
  induction res with
  | nil => rfl
  | cons q rest ih =>
    rw [applyResolutionsToMap_cons,
      objSet_self_of_mem hndM (by rw [Prod.mk.eta]; exact hsub q (List.mem_cons_self q rest))]
    exact ih (fun p hp => hsub p (List.mem_cons_of_mem q hp))

theorem applyResolutionsToMap_idem {res m : SpeakerMap}
    (hndres : (res.map Prod.fst).Nodup) (hndm : (m.map Prod.fst).Nodup) :
    applyResolutionsToMap res (applyResolutionsToMap res m) =
      applyResolutionsToMap res m :=
  applyResolutionsToMap_self (nodup_keys_applyResolutionsToMap res hndm)
    (fun _ hp => mem_applyResolutionsToMap_of_mem_res hndres m hp)

theorem resolveSpeaker_idem {res : SpeakerMap}
    (hfix : ∀ p ∈ res, p.2 ≠ "" →
      lookupStr res p.2 = none ∨ lookupStr res p.2 = some p.2)
    (s : String) :
    resolveSpeaker res (resolveSpeaker res s) = resolveSpeaker res s := by
  cases h : lookupStr res s with
  | none => simp [resolveSpeaker, jsOrStr, h]
  | some v =>
    by_cases hv : v = ""
    · simp [resolveSpeaker, jsOrStr, h, hv]
    · have hmain : resolveSpeaker res s = v := by
        simp [resolveSpeaker, jsOrStr, h, hv]
      rw [hmain]
      rcases hfix (s, v) (lookupStr_mem h) hv with h2 | h2
      · simp [resolveSpeaker, jsOrStr, h2]
      · simp [resolveSpeaker, jsOrStr, h2, hv]

theorem applyResolutionsToTranscript_idem (res : SpeakerMap)
    (hfix : ∀ p ∈ res, p.2 ≠ "" →
      lookupStr res p.2 = none ∨ lookupStr res p.2 = some p.2)
    (t : List TranscriptSegment) :
    applyResolutionsToTranscript res (applyResolutionsToTranscript res t) =
      applyResolutionsToTranscript res t := by
  unfold applyResolutionsToTranscript
  rw [List.map_map]
  apply list_map_congr
  intro seg _
  cases seg
  simp [Function.comp, resolveSpeaker_idem hfix]

theorem applyResolutionsToUnresolved_idem (res : SpeakerMap)
    (u : List UnresolvedSpeaker) :
    applyResolutionsToUnresolved res (applyResolutionsToUnresolved res u) =
      applyResolutionsToUnresolved res u := by
  unfold applyResolutionsToUnresolved
  rw [List.filter_filter]
  simp

/-- Meeting state and resolution map witnessing that the resolution update
is not idempotent: the map sends label A to B and label B to C, so the
transcript speaker A becomes B after one application and C after two. -/
def chainDoc : MeetingDoc :=
  { transcript := [TranscriptSegment.mk "A" "hi" 0 10]
    speakerMap := []
    unresolvedSpeakers := []
    unresolvedCount := 0 }

/-- The chained resolution map used with `chainDoc`. -/
def chainRes : SpeakerMap := [("A", "B"), ("B", "C")]

/-- C1 (counterexample): applying the resolution map
`[A ↦ B, B ↦ C]` to a meeting whose transcript contains speaker A is not
idempotent — the second application rewrites B (produced by the first
application) to C. -/
theorem updateMeetingSpeakers_not_idem :
    updateMeetingSpeakers chainRes (updateMeetingSpeakers chainRes chainDoc) ≠
      updateMeetingSpeakers chainRes chainDoc := by decide

/-- C1 (amended): for every stored meeting state and every resolution map
whose resolved names, when they are themselves labels of the map, map to
themselves (and whose keys are distinct, as JavaScript object keys always
are), applying the resolution update twice yields exactly the state of
applying it once; in particular re-applying a resolution for a label no
longer in `unresolved_speakers` is a no-op, not an error. Without the
fixed-point condition a chained map such as `[A ↦ B, B ↦ C]` rewrites the
transcript again on the second application. -/
theorem updateMeetingSpeakers_idem (res : SpeakerMap) (doc : MeetingDoc)
    (hndres : (res.map Prod.fst).Nodup)
    (hndmap : (doc.speakerMap.map Prod.fst).Nodup)
    (hfix : ∀ p ∈ res, p.2 ≠ "" →
      lookupStr res p.2 = none ∨ lookupStr res p.2 = some p.2) :
    updateMeetingSpeakers res (updateMeetingSpeakers res doc) =
      updateMeetingSpeakers res doc := by
  refine MeetingDoc.ext ?_ ?_ ?_ ?_
  · exact applyResolutionsToTranscript_idem res hfix doc.transcript
  · exact applyResolutionsToMap_idem hndres hndmap
  · exact applyResolutionsToUnresolved_idem res doc.unresolvedSpeakers
  · exact congrArg List.length
      (applyResolutionsToUnresolved_idem res doc.unresolvedSpeakers)

/-- Concrete meeting state for the idempotence witness. -/
def plainDoc : MeetingDoc :=
  { transcript := [TranscriptSegment.mk "Speaker 1" "hello" 0 1000]
    speakerMap := []
    unresolvedSpeakers := [UnresolvedSpeaker.mk "Speaker 1" none]
    unresolvedCount := 1 }

/-- C1 (witness): the amended idempotence theorem applied to a concrete
meeting with one unresolved speaker and the resolution map
`[Speaker 1 ↦ Alice]`. -/
theorem updateMeetingSpeakers_idem_witness :
    updateMeetingSpeakers [("Speaker 1", "Alice")]
        (updateMeetingSpeakers [("Speaker 1", "Alice")] plainDoc) =
      updateMeetingSpeakers [("Speaker 1", "Alice")] plainDoc :=
  updateMeetingSpeakers_idem [("Speaker 1", "Alice")] plainDoc
    (by decide) (by decide) (by decide)

/-- C10: the resolution update only rewrites the `speaker` field: the
updated transcript has the same length and order as the original, and
every utterance keeps its `text`, `start_ms` and `end_ms` unchanged. -/
theorem updateMeetingSpeakers_frame (res : SpeakerMap) (doc : MeetingDoc) :
    (updateMeetingSpeakers res doc).transcript.length =
      doc.transcript.length ∧
    ∀ i : Nat,
      ((updateMeetingSpeakers res doc).transcript[i]?).map
          TranscriptSegment.text =
        (doc.transcript[i]?).map TranscriptSegment.text ∧
      ((updateMeetingSpeakers res doc).transcript[i]?).map
          TranscriptSegment.start_ms =
        (doc.transcript[i]?).map TranscriptSegment.start_ms ∧
      ((updateMeetingSpeakers res doc).transcript[i]?).map
          TranscriptSegment.end_ms =
        (doc.transcript[i]?).map TranscriptSegment.end_ms := by
  refine ⟨?_, fun i => ?_⟩
  · simp [updateMeetingSpeakers, applyResolutionsToTranscript]
  · simp only [updateMeetingSpeakers, applyResolutionsToTranscript,
      List.getElem?_map]
    rcases doc.transcript[i]? with _ | seg
    · exact ⟨rfl, rfl, rfl⟩
    · exact ⟨rfl, rfl, rfl⟩

/-! Completeness invariant (spec section 3) and speaker-map injectivity. -/

/-- The speaker values appearing in the stored transcript, in order. -/
def MeetingDoc.speakers (doc : MeetingDoc) : List String :=
  doc.transcript.map TranscriptSegment.speaker

/-- The labels of the stored unresolved speaker entries, in order. -/
def MeetingDoc.labels (doc : MeetingDoc) : List String :=
  doc.unresolvedSpeakers.map UnresolvedSpeaker.label

/-- `Object.keys` of a stored string map. -/
def mapKeys (m : SpeakerMap) : List String := m.map Prod.fst

/-- `Object.values` of a stored string map. -/
def mapValues (m : SpeakerMap) : List String := m.map Prod.snd

/-- The spec's completeness invariant on a meeting state: the set of
distinct speakers of the transcript equals the keys of `speaker_map`
together with the labels of `unresolved_speakers`, and no label is in
both. -/
def completeness (doc : MeetingDoc) : Prop :=
  (∀ s ∈ doc.speakers, s ∈ mapKeys doc.speakerMap ∨ s ∈ doc.labels) ∧
  (∀ k ∈ mapKeys doc.speakerMap, k ∈ doc.speakers) ∧
  (∀ u ∈ doc.labels, u ∈ doc.speakers) ∧
  (∀ k ∈ mapKeys doc.speakerMap, k ∉ doc.labels)

instance (doc : MeetingDoc) : Decidable (completeness doc) := by
  unfold completeness
  exact inferInstance

/-- A meeting state satisfying the completeness invariant: one transcript
utterance by the synthetic label A, still unresolved. -/
def invDoc : MeetingDoc :=
  { transcript := [TranscriptSegment.mk "A" "hi" 0 10]
    speakerMap := []
    unresolvedSpeakers := [UnresolvedSpeaker.mk "A" none]
    unresolvedCount := 1 }

/-- The resolution map used with `invDoc`. -/
def invRes : SpeakerMap := [("A", "N")]

/-- C2 (counterexample): the completeness invariant is not preserved by
the resolution update: resolving label A to the display name N rewrites
the transcript speaker to N, while `speaker_map` keeps the old label A as
its key, so N is neither a key of `speaker_map` nor an unresolved
label. -/
theorem completeness_not_preserved :
    completeness invDoc ∧
      ¬ completeness (updateMeetingSpeakers invRes invDoc) :=
  ⟨by decide, by decide⟩

/-- C2 (amended): after a resolution update of a state satisfying the
invariant (with distinct resolution keys and non-empty resolved names),
every speaker of the updated transcript is a key of the updated
`speaker_map`, a label of the updated `unresolved_speakers`, or a resolved
display name (a value of the updated `speaker_map`), and no key of the
updated `speaker_map` is also an unresolved label. The literal invariant
(transcript speakers = keys plus labels) does not survive the update. -/
theorem updateMeetingSpeakers_completeness (res : SpeakerMap)
    (doc : MeetingDoc) (hinv : completeness doc)
    (hnd : (res.map Prod.fst).Nodup)
    (hvals : ∀ p ∈ res, p.2 ≠ "") :
    (∀ s ∈ (updateMeetingSpeakers res doc).speakers,
        s ∈ mapKeys (updateMeetingSpeakers res doc).speakerMap ∨
        s ∈ (updateMeetingSpeakers res doc).labels ∨
        s ∈ mapValues (updateMeetingSpeakers res doc).speakerMap) ∧
    (∀ k ∈ mapKeys (updateMeetingSpeakers res doc).speakerMap,
        k ∉ (updateMeetingSpeakers res doc).labels) := by
  constructor
  · intro s hs
    have hs2 : ∃ seg ∈ doc.transcript, resolveSpeaker res seg.speaker = s := by
      simp only [MeetingDoc.speakers, updateMeetingSpeakers,
        applyResolutionsToTranscript, List.map_map, List.mem_map,
        Function.comp] at hs
      exact hs
    obtain ⟨seg, hseg, rfl⟩ := hs2
    have hsp : seg.speaker ∈ doc.speakers :=
      List.mem_map.mpr ⟨seg, hseg, rfl⟩
    cases h : lookupStr res seg.speaker with
    | none =>
      have hres : resolveSpeaker res seg.speaker = seg.speaker := by
        simp [resolveSpeaker, jsOrStr, h]
      rw [hres]
      rcases hinv.1 seg.speaker hsp with hk | hl
      · left
        show seg.speaker ∈ (applyResolutionsToMap res doc.speakerMap).map Prod.fst
        exact (keys_applyResolutionsToMap res doc.speakerMap seg.speaker).mpr
          (Or.inl hk)
      · right; left
        obtain ⟨u, hu, hul⟩ := List.mem_map.mp hl
        refine List.mem_map.mpr ⟨u, ?_, hul⟩
        show u ∈ (doc.unresolvedSpeakers.filter _)
        refine List.mem_filter.mpr ⟨hu, ?_⟩
        rw [hul, h]
        rfl
    | some v =>
      have hv : v ≠ "" := hvals (seg.speaker, v) (lookupStr_mem h)
      have hres : resolveSpeaker res seg.speaker = v := by
        simp [resolveSpeaker, jsOrStr, h, hv]
      rw [hres]
      right; right
      refine List.mem_map.mpr ⟨(seg.speaker, v), ?_, rfl⟩
      exact mem_applyResolutionsToMap_of_mem_res hnd doc.speakerMap
        (lookupStr_mem h)
  · intro k hk hkl
    obtain ⟨u, hu, hul⟩ := List.mem_map.mp hkl
    have hu2 := List.mem_filter.mp hu
    have hlk : truthyOpt (lookupStr res k) = false := by
      have := hu2.2
      rw [hul] at this
      simpa using this
    have hkold : k ∈ doc.labels := List.mem_map.mpr ⟨u, hu2.1, hul⟩
    have hk2 := (keys_applyResolutionsToMap res doc.speakerMap k).mp hk
    rcases hk2 with hk3 | hk3
    · exact hinv.2.2.2 k hk3 hkold
    · have hne : lookupStr res k ≠ none := by
        rw [Ne, lookupStr_eq_none]
        simpa using hk3
      obtain ⟨w, hw⟩ := Option.ne_none_iff_exists.mp hne
      have hwne : w ≠ "" := hvals (k, w) (lookupStr_mem hw.symm)
      rw [← hw] at hlk
      simp [truthyOpt, hwne] at hlk

/-- Meeting state for the completeness witness: one resolved and one
unresolved speaker. -/
def mixedDoc : MeetingDoc :=
  { transcript := [TranscriptSegment.mk "S1" "a" 0 5, TranscriptSegment.mk "S2" "b" 5 9]
    speakerMap := [("S1", "Bob")]
    unresolvedSpeakers := [UnresolvedSpeaker.mk "S2" none]
    unresolvedCount := 1 }

/-- C2 (witness): the amended completeness theorem applied to `mixedDoc`
and the resolution map `[S2 ↦ Ann]`. -/
theorem updateMeetingSpeakers_completeness_witness :
    (∀ s ∈ (updateMeetingSpeakers [("S2", "Ann")] mixedDoc).speakers,
        s ∈ mapKeys (updateMeetingSpeakers [("S2", "Ann")] mixedDoc).speakerMap ∨
        s ∈ (updateMeetingSpeakers [("S2", "Ann")] mixedDoc).labels ∨
        s ∈ mapValues (updateMeetingSpeakers [("S2", "Ann")] mixedDoc).speakerMap) ∧
    (∀ k ∈ mapKeys (updateMeetingSpeakers [("S2", "Ann")] mixedDoc).speakerMap,
        k ∉ (updateMeetingSpeakers [("S2", "Ann")] mixedDoc).labels) :=
  updateMeetingSpeakers_completeness [("S2", "Ann")] mixedDoc
    (by decide) (by decide) (by decide)

/-- Injectivity of a stored string map: no two keys carry the same
value. -/
def speakerMapInjective (m : SpeakerMap) : Prop :=
  ∀ p ∈ m, ∀ q ∈ m, p.2 = q.2 → p.1 = q.1

instance (m : SpeakerMap) : Decidable (speakerMapInjective m) := by
  unfold speakerMapInjective
  exact inferInstance

/-- Meeting state with two unresolved labels, used to break injectivity
preservation. -/
def dupDoc : MeetingDoc :=
  { transcript := [TranscriptSegment.mk "A" "x" 0 1, TranscriptSegment.mk "B" "y" 1 2]
    speakerMap := []
    unresolvedSpeakers := [UnresolvedSpeaker.mk "A" none, UnresolvedSpeaker.mk "B" none]
    unresolvedCount := 2 }

/-- The resolution map assigning the same display name to both labels. -/
def dupRes : SpeakerMap := [("A", "N"), ("B", "N")]

/-- C3 (counterexample): the resolution update does not preserve
injectivity of `speaker_map`: resolving both labels A and B to the same
name N produces a speaker map with two keys carrying the value N. -/
theorem speakerMap_injective_not_preserved :
    speakerMapInjective dupDoc.speakerMap ∧
      ¬ speakerMapInjective (updateMeetingSpeakers dupRes dupDoc).speakerMap :=
  ⟨by decide, by decide⟩

/-- C3 (amended): the resolution update preserves injectivity of
`speaker_map` only under extra conditions on the resolution map: if the
stored map and the resolution map are each injective and no resolved name
of the resolution map already occurs as a value of the stored map, the
updated map is injective. The update itself enforces nothing: it writes
every resolution entry into `speaker_map` unconditionally, so the §4.5
tie-break rule is not re-checked here. -/
theorem updateMeetingSpeakers_injective (res : SpeakerMap)
    (doc : MeetingDoc) (hm : speakerMapInjective doc.speakerMap)
    (hres : speakerMapInjective res)
    (hfresh : ∀ p ∈ res, ∀ q ∈ doc.speakerMap, p.2 ≠ q.2) :
    speakerMapInjective (updateMeetingSpeakers res doc).speakerMap := by
  intro p hp q hq hpq
  have hp2 := mem_applyResolutionsToMap
    (show p ∈ applyResolutionsToMap res doc.speakerMap from hp)
  have hq2 := mem_applyResolutionsToMap
    (show q ∈ applyResolutionsToMap res doc.speakerMap from hq)
  rcases hp2 with hp3 | ⟨hp3, _⟩ <;> rcases hq2 with hq3 | ⟨hq3, _⟩
  · exact hres p hp3 q hq3 hpq
  · exact absurd hpq (hfresh p hp3 q hq3)
  · exact absurd hpq.symm (hfresh q hq3 p hp3)
  · exact hm p hp3 q hq3 hpq

/-- C3 (witness): the amended injectivity theorem applied to `mixedDoc`
(whose map sends S1 to Bob) and the resolution map `[S2 ↦ Ann]`. -/
theorem updateMeetingSpeakers_injective_witness :
    speakerMapInjective
      (updateMeetingSpeakers [("S2", "Ann")] mixedDoc).speakerMap :=
  updateMeetingSpeakers_injective [("S2", "Ann")] mixedDoc
    (by decide) (by decide) (by decide)

/-! Saving a processed meeting (source: `saveMeetingToDB`). -/

/-- The payload handed to `saveMeetingToDB` (source: interface
`MeetingData`). -/
structure MeetingData where
  teamId : String
  meetingTitle : String
  transcript : List TranscriptSegment
  speakerMap : SpeakerMap
  unresolvedSpeakers : List UnresolvedSpeaker
  uploadedBy : Option String
deriving DecidableEq

/-- The JavaScript expression `v || null` for an optional string:
`undefined` and `""` become `null`. -/
def jsOrNull (v : Option String) : Option String :=
  match v with
  | some s => if s = "" then none else some s
  | none => none

/-- The meeting document written to the store (source: the
`meetingDocument` object literal inside `saveMeetingToDB`; the two server
timestamps are omitted). -/
structure SavedMeetingDoc where
  id : String
  teamId : String
  title : String
  transcript : List TranscriptSegment
  speakerMap : SpeakerMap
  unresolvedSpeakers : List UnresolvedSpeaker
  uploadedBy : Option String
  totalSegments : Nat
  totalSpeakers : Nat
  unresolvedCount : Nat
  durationMs : Int
deriving DecidableEq

/-- The pure document assembly performed by `saveMeetingToDB` (the stored
id is the fresh document key): `totalSegments` is `transcript.length`,
`totalSpeakers` is `Object.keys(speakerMap).length`, `unresolvedCount` is
`unresolvedSpeakers.length`, and `durationMs` is
`transcript[transcript.length - 1].end_ms` when the transcript is
non-empty, else 0. -/
def saveMeetingToDB (meetingData : MeetingData) (meetingId : String) :
    SavedMeetingDoc :=
  { id := meetingId
    teamId := meetingData.teamId
    title := meetingData.meetingTitle
    transcript := meetingData.transcript
    speakerMap := meetingData.speakerMap
    unresolvedSpeakers := meetingData.unresolvedSpeakers
    uploadedBy := jsOrNull meetingData.uploadedBy
    totalSegments := meetingData.transcript.length
    totalSpeakers := (mapKeys meetingData.speakerMap).length
    unresolvedCount := meetingData.unresolvedSpeakers.length
    durationMs :=
      match meetingData.transcript.getLast? with
      | some segment => segment.end_ms
      | none => 0 }

/-- The spec's speaker count, stated from the spec's words for
comparison: distinct resolved plus unresolved speakers. -/
def specSpeakerCount (d : MeetingData) : Nat :=
  (mapKeys d.speakerMap).length + d.unresolvedSpeakers.length

/-- The spec's duration, stated from the spec's words for comparison:
`v` is the maximum `end_ms` across the utterances of `t`. -/
def isMaxEnd (t : List TranscriptSegment) (v : Int) : Prop :=
  v ∈ t.map TranscriptSegment.end_ms ∧
    ∀ e ∈ t.map TranscriptSegment.end_ms, e ≤ v

instance (t : List TranscriptSegment) (v : Int) : Decidable (isMaxEnd t v) := by
  unfold isMaxEnd
  exact inferInstance

/-- Meeting payload whose transcript is not ordered by `end_ms` and which
has one resolved and one unresolved speaker. -/
def unsortedData : MeetingData :=
  { teamId := "t"
    meetingTitle := "weekly"
    transcript := [TranscriptSegment.mk "A" "x" 0 100, TranscriptSegment.mk "A" "y" 10 50]
    speakerMap := [("S1", "A")]
    unresolvedSpeakers := [UnresolvedSpeaker.mk "S2" none]
    uploadedBy := none }

/-- C4 (counterexample): on `unsortedData` the stored metadata is not
what the claim states: `totalSpeakers` is 1, not the resolved plus
unresolved count 2, and `durationMs` is the final utterance's `end_ms`
50, not the maximum 100. -/
theorem saveMeetingToDB_metadata_counterexample :
    ¬ ((saveMeetingToDB unsortedData "m1").totalSegments =
          unsortedData.transcript.length ∧
       (saveMeetingToDB unsortedData "m1").totalSpeakers =
          specSpeakerCount unsortedData ∧
       isMaxEnd unsortedData.transcript
          (saveMeetingToDB unsortedData "m1").durationMs) := by decide

theorem chain_le_getLast :
    ∀ (t : List TranscriptSegment),
      List.Chain' (fun a b => a.end_ms ≤ b.end_ms) t →
      ∀ seg ∈ t, ∀ (h : t ≠ []), seg.end_ms ≤ (t.getLast h).end_ms := by
  intro t
  induction t with
  | nil => intro _ seg hseg; cases hseg
  | cons a rest ih =>
    intro hch seg hseg h
    cases rest with
    | nil =>
      rcases List.mem_cons.mp hseg with rfl | h2
      · exact le_refl _
      · cases h2
    | cons b rest2 =>
      have hab : a.end_ms ≤ b.end_ms := (List.chain'_cons.mp hch).1
      have htail := (List.chain'_cons.mp hch).2
      have hne2 : b :: rest2 ≠ [] := by simp
      have hgl : (a :: b :: rest2).getLast h = (b :: rest2).getLast hne2 :=
        List.getLast_cons hne2
      rcases List.mem_cons.mp hseg with rfl | h2
      · rw [hgl]
        exact le_trans hab
          (ih htail b (List.mem_cons_self _ _) hne2)
      · rw [hgl]
        exact ih htail seg h2 hne2

/-- C4 (amended): the stored metadata of a saved meeting:
`totalSegments` equals the number of transcript utterances; the stored
`totalSpeakers` counts only the resolved speakers (the `speaker_map`
keys), with the unresolved count stored separately as `unresolvedCount`,
so that their sum — not `totalSpeakers` alone — equals the spec's
resolved-plus-unresolved speaker count; `durationMs` equals the last
utterance's `end_ms` (0 for an empty transcript), which is the maximum
`end_ms` only when the transcript is ordered by `end_ms`. -/
theorem saveMeetingToDB_metadata (d : MeetingData) (meetingId : String)
    (hsorted : List.Chain' (fun a b => a.end_ms ≤ b.end_ms) d.transcript) :
    (saveMeetingToDB d meetingId).totalSegments = d.transcript.length ∧
    (saveMeetingToDB d meetingId).totalSpeakers =
      (mapKeys d.speakerMap).length ∧
    (saveMeetingToDB d meetingId).unresolvedCount =
      d.unresolvedSpeakers.length ∧
    (saveMeetingToDB d meetingId).totalSpeakers +
        (saveMeetingToDB d meetingId).unresolvedCount = specSpeakerCount d ∧
    (d.transcript ≠ [] →
      isMaxEnd d.transcript (saveMeetingToDB d meetingId).durationMs) := by
  refine ⟨rfl, rfl, rfl, rfl, fun hne => ?_⟩
  have hdur : (saveMeetingToDB d meetingId).durationMs =
      (d.transcript.getLast hne).end_ms := by
    show (match d.transcript.getLast? with
      | some segment => segment.end_ms
      | none => 0) = _
    rw [List.getLast?_eq_getLast d.transcript hne]
  rw [hdur]
  constructor
  · exact List.mem_map.mpr ⟨d.transcript.getLast hne, List.getLast_mem hne, rfl⟩
  · intro e he
    obtain ⟨seg, hseg, rfl⟩ := List.mem_map.mp he
    exact chain_le_getLast d.transcript hsorted seg hseg hne

/-- Meeting payload with a transcript ordered by `end_ms`. -/
def sortedData : MeetingData :=
  { teamId := "t"
    meetingTitle := "standup"
    transcript := [TranscriptSegment.mk "A" "x" 0 50, TranscriptSegment.mk "B" "y" 50 100]
    speakerMap := [("S1", "A")]
    unresolvedSpeakers := [UnresolvedSpeaker.mk "S2" none]
    uploadedBy := none }

/-- C4 (witness): the amended metadata theorem applied to `sortedData`. -/
theorem saveMeetingToDB_metadata_witness :
    (saveMeetingToDB sortedData "m2").totalSegments =
      sortedData.transcript.length ∧
    (saveMeetingToDB sortedData "m2").totalSpeakers =
      (mapKeys sortedData.speakerMap).length ∧
    (saveMeetingToDB sortedData "m2").unresolvedCount =
      sortedData.unresolvedSpeakers.length ∧
    (saveMeetingToDB sortedData "m2").totalSpeakers +
        (saveMeetingToDB sortedData "m2").unresolvedCount =
      specSpeakerCount sortedData ∧
    (sortedData.transcript ≠ [] →
      isMaxEnd sortedData.transcript
        (saveMeetingToDB sortedData "m2").durationMs) :=
  saveMeetingToDB_metadata sortedData "m2"
    (List.chain'_cons.mpr ⟨by decide, by simp⟩)

/-! The PATCH handler of the meeting route (source: `PATCH` in
`app/api/meetings/[meetingId]/route.ts`). -/

/-- The JSON body of a successful PATCH response. -/
structure PatchOkBody where
  success : Bool
  message : String
deriving DecidableEq

/-- The possible PATCH responses: 200 with the success body, 400 with an
error string, or 500 with error and details strings. -/
inductive PatchResponse where
  | ok (body : PatchOkBody)
  | badRequest (error : String)
  | serverError (error : String) (details : String)
deriving DecidableEq

/-- The PATCH handler as a pure function of the stored meeting and the
request body's `speakerResolutions` field (`none` models a missing or
non-object field): validate the body, run `updateMeetingSpeakers` against
the store, and answer `{ success: true, message: ... }`; the error thrown
when the meeting is missing surfaces as the 500 branch. -/
def patchMeetingSpeakers (meeting : Option MeetingDoc)
    (speakerResolutions : Option SpeakerMap) :
    Option MeetingDoc × PatchResponse :=
  match speakerResolutions with
  | none =>
    (meeting, PatchResponse.badRequest ("speakerResolutions object is required"))
  | some res =>
    match meeting with
    | none =>
      (none, PatchResponse.serverError ("Failed to update speakers")
        ("Failed to update meeting speakers"))
    | some doc =>
      (some (updateMeetingSpeakers res doc),
        PatchResponse.ok (PatchOkBody.mk true ("Speakers updated successfully")))

/-- Stored meeting used in the PATCH counterexample. -/
def patchDocA : MeetingDoc :=
  { transcript := []
    speakerMap := []
    unresolvedSpeakers := [UnresolvedSpeaker.mk "A" none]
    unresolvedCount := 1 }

/-- A second stored meeting whose updated speaker map and unresolved list
differ from those of `patchDocA`. -/
def patchDocB : MeetingDoc :=
  { transcript := []
    speakerMap := [("B", "M")]
    unresolvedSpeakers := [UnresolvedSpeaker.mk "A" none, UnresolvedSpeaker.mk "B" none]
    unresolvedCount := 2 }

/-- The resolution map used in the PATCH counterexample. -/
def patchRes : SpeakerMap := [("A", "N")]

/-- C5 (counterexample): a successful PATCH response cannot contain the
updated `speaker_map` / `unresolved_speakers` pair: two stores whose
updated pairs differ receive the identical constant response
`{ success: true, message: "Speakers updated successfully" }`. -/
theorem patch_response_omits_update :
    (patchMeetingSpeakers (some patchDocA) (some patchRes)).2 =
      PatchResponse.ok (PatchOkBody.mk true ("Speakers updated successfully")) ∧
    (patchMeetingSpeakers (some patchDocB) (some patchRes)).2 =
      (patchMeetingSpeakers (some patchDocA) (some patchRes)).2 ∧
    (updateMeetingSpeakers patchRes patchDocA).speakerMap ≠
      (updateMeetingSpeakers patchRes patchDocB).speakerMap ∧
    (updateMeetingSpeakers patchRes patchDocA).unresolvedSpeakers ≠
      (updateMeetingSpeakers patchRes patchDocB).unresolvedSpeakers := by decide

/-- C5 (amended): a successful speaker-resolution PATCH applies the
update to the store and returns only the constant body
`{ success: true, message: "Speakers updated successfully" }`; the
updated `speaker_map` and `unresolved_speakers` are persisted but not
included in the response (the response does not depend on the stored
meeting at all), so a caller must re-fetch the meeting to observe
them. -/
theorem patchMeetingSpeakers_success (doc otherDoc : MeetingDoc)
    (res : SpeakerMap) :
    patchMeetingSpeakers (some doc) (some res) =
      (some (updateMeetingSpeakers res doc),
        PatchResponse.ok (PatchOkBody.mk true ("Speakers updated successfully"))) ∧
    (patchMeetingSpeakers (some doc) (some res)).2 =
      (patchMeetingSpeakers (some otherDoc) (some res)).2 :=
  ⟨rfl, rfl⟩

/-! Parsed JSON values and the action-extraction logic (source: `POST`
in the generate-actions route). -/

/-- A parsed JSON value, as handled by the action-extraction route. -/
inductive JVal where
  | null
  | bool (b : Bool)
  | num (n : Int)
  | str (s : String)
  | arr (elements : List JVal)
  | obj (fields : List (String × JVal))

/-- JavaScript truthiness of a JSON value: `null`, `false`, `0` and `""`
are falsy; every array and object is truthy. -/
def JVal.truthy : JVal → Bool
  | .null => false
  | .bool b => b
  | .num n => !(n == 0)
  | .str s => !(s == "")
  | .arr _ => true
  | .obj _ => true

/-- Field lookup inside a parsed JSON object body. -/
def lookupField : List (String × JVal) → String → Option JVal
  | [], _ => none
  | p :: rest, k => if p.1 = k then some p.2 else lookupField rest k

/-- Optional-chained property access `v?.k`: `undefined` (`none`) unless
`v` is an object with the field. -/
def JVal.getField : JVal → String → Option JVal
  | .obj fields, k => lookupField fields k
  | _, _ => none

/-- The JavaScript expression `v || fallbackVal` for an optional JSON
value. -/
def jsOrJ (v : Option JVal) (fallbackVal : JVal) : JVal :=
  match v with
  | some x => if x.truthy then x else fallbackVal
  | none => fallbackVal

/-- Source: `agentData?.actions || agentData?.ai_response || agentData`. -/
def selectActionsPayload (agentData : JVal) : JVal :=
  jsOrJ (agentData.getField ("actions"))
    (jsOrJ (agentData.getField ("ai_response")) agentData)

/-- Source: the trailing `.replace(/```\s*$/i, '')` of the fence
cleanup (the leading `.trim()` has already removed trailing
whitespace). -/
def stripTrailingFence (s : String) : String :=
  if s.endsWith ("```") then s.dropRight 3 else s

/-- Source: the fence cleanup of a string agent payload — `trim`, then
strip a leading ```` ```json ```` or ```` ``` ```` fence with following
whitespace, then strip a trailing ```` ``` ```` fence. -/
def cleanAgentString (s : String) : String :=
  let t := s.trim
  if t.startsWith ("```json") then stripTrailingFence ((t.drop 7).trimLeft)
  else if t.startsWith ("```") then stripTrailingFence ((t.drop 3).trimLeft)
  else t

/-- Source: `if (!Array.isArray(actions)) { actions = [actions]; }`. -/
def ensureArray : JVal → List JVal
  | .arr elements => elements
  | v => [v]

/-- The payload acceptance logic of the generate-actions route, lines
129–157: select the payload, parse it through the external `JSON.parse`
(the `parseJson` argument) when it is a string (throwing the fixed parse
error on failure), then wrap any non-array value in a one-element
array. -/
def extractActions (parseJson : String → Option JVal) (agentData : JVal) :
    Except String (List JVal) :=
  match selectActionsPayload agentData with
  | .str s =>
    match parseJson (cleanAgentString s) with
    | none => .error ("Failed to parse AI response as JSON")
    | some v => .ok (ensureArray v)
  | v => .ok (ensureArray v)

/-- A non-list agent payload: a plain JSON object with no `actions` or
`ai_response` field. -/
def nonListPayload : JVal := JVal.obj [("summary", JVal.str "no actions here")]

/-- C6 (counterexample): a payload that is not a list is not reported as
an error: the route wraps the object `{"summary": ...}` into the
one-element action list `[payload]` and accepts it. -/
theorem extractActions_coerces_nonlist :
    (∀ l, nonListPayload ≠ JVal.arr l) ∧
    extractActions (fun _ => none) nonListPayload =
      .ok [nonListPayload] := by
  constructor
  · intro l h
    cases h
  · rfl

/-- C6 (amended): free text that does not parse as structured data is a
reported error (`Failed to parse AI response as JSON`), and a string
payload that parses is accepted; but a payload that is (or parses to) a
non-list value is silently wrapped into a one-element list and accepted,
not reported. -/
theorem extractActions_acceptance (parseJson : String → Option JVal)
    (agentData : JVal) :
    (∀ s, selectActionsPayload agentData = JVal.str s →
      parseJson (cleanAgentString s) = none →
      extractActions parseJson agentData =
        .error ("Failed to parse AI response as JSON")) ∧
    (∀ s v, selectActionsPayload agentData = JVal.str s →
      parseJson (cleanAgentString s) = some v →
      extractActions parseJson agentData = .ok (ensureArray v)) ∧
    ((∀ s, selectActionsPayload agentData ≠ JVal.str s) →
      extractActions parseJson agentData =
        .ok (ensureArray (selectActionsPayload agentData))) ∧
    (∀ v, (∀ l, v ≠ JVal.arr l) → ensureArray v = [v]) := by
  refine ⟨?_, ?_, ?_, ?_⟩
  · intro s hsel hparse
    simp only [extractActions, hsel, hparse]
  · intro s v hsel hparse
    simp only [extractActions, hsel, hparse]
  · intro hnot
    rw [extractActions]
    cases hsel : selectActionsPayload agentData with
    | str s => exact absurd hsel (hnot s)
    | null => rfl
    | bool b => rfl
    | num n => rfl
    | arr elements => rfl
    | obj fields => rfl
  · intro v hv
    cases v with
    | arr elements => exact absurd rfl (hv elements)
    | null => rfl
    | bool b => rfl
    | num n => rfl
    | str s => rfl
    | obj fields => rfl

/-- C6 (witness): the amended theorem applied to an unparseable string
payload yields the reported parse error. -/
theorem extractActions_acceptance_witness :
    extractActions (fun _ => none) (JVal.str "not json") =
      .error ("Failed to parse AI response as JSON") :=
  (extractActions_acceptance (fun _ => none) (JVal.str "not json")).1
    "not json" rfl rfl

/-! The generate-actions route (source: `POST` in the generate-actions
route file). -/

/-- A stored meeting document as read by the generate-actions route;
`teamId = ""` models a missing `teamId`. -/
structure ActionsMeetingDoc where
  teamId : String
  transcript : List TranscriptSegment
  speakerMap : SpeakerMap
  unresolvedSpeakers : List UnresolvedSpeaker
  actions : Option (List JVal)
  status : Option String

/-- A stored team document restricted to the ClickUp integration fields;
`""` models a missing field. -/
structure ClickupTeamDoc where
  accessToken : String
  spaceId : String

/-- Outcome of the fetch to the actions microservice: a network-level
rejection, a non-OK response with its body text, or an OK response with
its parsed JSON payload. -/
inductive AgentOutcome where
  | netErr (message : String)
  | httpErr (body : String)
  | ok (payload : JVal)

/-- Responses of the generate-actions route: 200 with the action list,
a 400/404 with an error string, or the catch-all 500 with error and
details strings. -/
inductive GenResponse where
  | ok (actions : List JVal)
  | clientErr (status : Nat) (error : String)
  | serverErr (error : String) (details : String)

/-- Source: `transcriptArray.map(t => t.speaker + ': ' + t.text)
.join('\n')`. -/
def fullTranscriptText (transcript : List TranscriptSegment) : String :=
  String.intercalate ("\n")
    (transcript.map (fun t => t.speaker ++ (": ") ++ t.text))

/-- Source: the space id used for the agent call — the team's configured
`spaceId` if truthy, else the `CLICKUP_SPACE_ID` environment value. -/
def resolvedSpaceId (teamDoc : ClickupTeamDoc) (envSpaceId : String) : String :=
  if teamDoc.spaceId = "" then envSpaceId else teamDoc.spaceId

/-- The generate-actions route as a pure function: validate the meeting
and team configuration, call the agent service with the decrypted token,
the space id and the joined transcript text, accept its payload through
`extractActions`, and only on success write `actions` and
`status: completed` back to the stored meeting. Every thrown error is
answered by the catch-all 500 response with the fixed error string. -/
def generateActions (parseJson : String → Option JVal)
    (decrypt : String → String) (meetingId : String)
    (meeting : Option ActionsMeetingDoc)
    (teams : String → Option ClickupTeamDoc) (envSpaceId : String)
    (serviceUrl : String)
    (agent : String → String → String → AgentOutcome) :
    Option ActionsMeetingDoc × GenResponse :=
  if meetingId = "" then
    (meeting, GenResponse.clientErr 400 ("Meeting ID is required"))
  else
    match meeting with
    | none => (none, GenResponse.clientErr 404 ("Meeting not found"))
    | some doc =>
      if doc.teamId = "" then
        (some doc, GenResponse.clientErr 400 ("Meeting is missing teamId."))
      else if doc.transcript.length = 0 then
        (some doc, GenResponse.clientErr 400 ("Meeting has no transcript data."))
      else
        match teams doc.teamId with
        | none => (some doc, GenResponse.clientErr 404 ("Team not found."))
        | some teamDoc =>
          if teamDoc.accessToken = "" then
            (some doc, GenResponse.clientErr 400
              ("ClickUp access token is not configured. Please connect ClickUp in team settings."))
          else if resolvedSpaceId teamDoc envSpaceId = "" then
            (some doc, GenResponse.clientErr 400
              ("ClickUp space ID is not configured. Please add CLICKUP_SPACE_ID to your environment variables."))
          else if serviceUrl = "" then
            (some doc, GenResponse.serverErr ("Failed to generate actions")
              ("ACTIONS_SERVICE_URL is not configured."))
          else
            match agent (decrypt teamDoc.accessToken)
                (resolvedSpaceId teamDoc envSpaceId)
                (fullTranscriptText doc.transcript) with
            | AgentOutcome.netErr message =>
              (some doc, GenResponse.serverErr ("Failed to generate actions") message)
            | AgentOutcome.httpErr body =>
              (some doc, GenResponse.serverErr ("Failed to generate actions")
                (("Agent Hive service failed: ") ++ body))
            | AgentOutcome.ok payload =>
              match extractActions parseJson payload with
              | Except.error message =>
                (some doc, GenResponse.serverErr ("Failed to generate actions") message)
              | Except.ok actions =>
                (some { doc with actions := some actions, status := some ("completed") },
                  GenResponse.ok actions)

theorem generateActions_reduce (parseJson : String → Option JVal)
    (decrypt : String → String) (meetingId : String)
    (doc : ActionsMeetingDoc) (teams : String → Option ClickupTeamDoc)
    (envSpaceId serviceUrl : String)
    (agent : String → String → String → AgentOutcome)
    (teamDoc : ClickupTeamDoc)
    (hid : meetingId ≠ "") (hteam : doc.teamId ≠ "")
    (htr : doc.transcript.length ≠ 0)
    (hteams : teams doc.teamId = some teamDoc)
    (htok : teamDoc.accessToken ≠ "")
    (hspace : resolvedSpaceId teamDoc envSpaceId ≠ "")
    (hurl : serviceUrl ≠ "") :
    generateActions parseJson decrypt meetingId (some doc) teams envSpaceId
        serviceUrl agent =
      (match agent (decrypt teamDoc.accessToken)
          (resolvedSpaceId teamDoc envSpaceId)
          (fullTranscriptText doc.transcript) with
        | AgentOutcome.netErr message =>
          (some doc, GenResponse.serverErr ("Failed to generate actions") message)
        | AgentOutcome.httpErr body =>
          (some doc, GenResponse.serverErr ("Failed to generate actions")
            (("Agent Hive service failed: ") ++ body))
        | AgentOutcome.ok payload =>
          match extractActions parseJson payload with
          | Except.error message =>
            (some doc, GenResponse.serverErr ("Failed to generate actions") message)
          | Except.ok actions =>
            (some { doc with actions := some actions, status := some ("completed") },
              GenResponse.ok actions)) := by
  simp only [generateActions, if_neg hid, if_neg hteam, if_neg htr, hteams,
    if_neg htok, if_neg hspace, if_neg hurl]

/-- C7: for every meeting that reaches the action-extraction call, every
failure of that step (service unreachable, non-OK response, or
unparseable payload) leaves the stored meeting — and with it the
transcript, `speaker_map` and `unresolved_speakers` — unchanged, answers
the caller with the 500 error response, and the generation can be retried
later: a subsequent invocation on the same (unchanged) store with a
functioning service succeeds and only then writes the actions and the
completed status. -/
theorem generateActions_failure_frame (parseJson : String → Option JVal)
    (decrypt : String → String) (meetingId : String)
    (doc : ActionsMeetingDoc) (teams : String → Option ClickupTeamDoc)
    (envSpaceId serviceUrl : String)
    (agent : String → String → String → AgentOutcome)
    (teamDoc : ClickupTeamDoc)
    (hid : meetingId ≠ "") (hteam : doc.teamId ≠ "")
    (htr : doc.transcript.length ≠ 0)
    (hteams : teams doc.teamId = some teamDoc)
    (htok : teamDoc.accessToken ≠ "")
    (hspace : resolvedSpaceId teamDoc envSpaceId ≠ "")
    (hurl : serviceUrl ≠ "")
    (hfail :
      (∃ e, agent (decrypt teamDoc.accessToken)
          (resolvedSpaceId teamDoc envSpaceId)
          (fullTranscriptText doc.transcript) = AgentOutcome.netErr e) ∨
      (∃ b, agent (decrypt teamDoc.accessToken)
          (resolvedSpaceId teamDoc envSpaceId)
          (fullTranscriptText doc.transcript) = AgentOutcome.httpErr b) ∨
      (∃ p, agent (decrypt teamDoc.accessToken)
          (resolvedSpaceId teamDoc envSpaceId)
          (fullTranscriptText doc.transcript) = AgentOutcome.ok p ∧
        ∃ m, extractActions parseJson p = Except.error m)) :
    (generateActions parseJson decrypt meetingId (some doc) teams envSpaceId
        serviceUrl agent).1 = some doc ∧
    (∃ d, (generateActions parseJson decrypt meetingId (some doc) teams
        envSpaceId serviceUrl agent).2 =
      GenResponse.serverErr ("Failed to generate actions") d) ∧
    (∀ retryAgent p l,
      retryAgent (decrypt teamDoc.accessToken)
          (resolvedSpaceId teamDoc envSpaceId)
          (fullTranscriptText doc.transcript) = AgentOutcome.ok p →
      extractActions parseJson p = Except.ok l →
      generateActions parseJson decrypt meetingId (some doc) teams envSpaceId
          serviceUrl retryAgent =
        (some { doc with actions := some l, status := some ("completed") },
          GenResponse.ok l)) := by
  have hred := generateActions_reduce parseJson decrypt meetingId doc teams
    envSpaceId serviceUrl agent teamDoc hid hteam htr hteams htok hspace hurl
  refine ⟨?_, ?_, ?_⟩
  · rcases hfail with ⟨e, ha⟩ | ⟨b, ha⟩ | ⟨p, ha, m, hm⟩
    · rw [hred, ha]
    · rw [hred, ha]
    · rw [hred, ha]
      simp only [hm]
  · rcases hfail with ⟨e, ha⟩ | ⟨b, ha⟩ | ⟨p, ha, m, hm⟩
    · exact ⟨e, by rw [hred, ha]⟩
    · exact ⟨("Agent Hive service failed: ") ++ b, by rw [hred, ha]⟩
    · exact ⟨m, by rw [hred, ha]; simp only [hm]⟩
  · intro retryAgent p l hp hl
    have hred2 := generateActions_reduce parseJson decrypt meetingId doc teams
      envSpaceId serviceUrl retryAgent teamDoc hid hteam htr hteams htok
      hspace hurl
    rw [hred2, hp]
    simp only [hl]

/-- Stored meeting used in the C7 witness. -/
def readyDoc : ActionsMeetingDoc :=
  { teamId := "team1"
    transcript := [TranscriptSegment.mk "A" "hello" 0 10]
    speakerMap := []
    unresolvedSpeakers := []
    actions := none
    status := none }

/-- Team store used in the C7 witness. -/
def readyTeams : String → Option ClickupTeamDoc :=
  fun _ => some (ClickupTeamDoc.mk "tok" "space9")

/-- An agent whose fetch always rejects. -/
def downAgent : String → String → String → AgentOutcome :=
  fun _ _ _ => AgentOutcome.netErr ("service unreachable")

/-- C7 (witness): the failure-frame theorem applied to a configured
meeting and an unreachable agent service. -/
theorem generateActions_failure_frame_witness :
    (generateActions (fun _ => none) id "m7" (some readyDoc) readyTeams ""
        "svc-url" downAgent).1 = some readyDoc ∧
    (∃ d, (generateActions (fun _ => none) id "m7" (some readyDoc) readyTeams
        "" "svc-url" downAgent).2 =
      GenResponse.serverErr ("Failed to generate actions") d) ∧
    (∀ retryAgent p l,
      retryAgent (id (ClickupTeamDoc.mk "tok" "space9").accessToken)
          (resolvedSpaceId (ClickupTeamDoc.mk "tok" "space9") "")
          (fullTranscriptText readyDoc.transcript) = AgentOutcome.ok p →
      extractActions (fun _ => none) p = Except.ok l →
      generateActions (fun _ => none) id "m7" (some readyDoc) readyTeams ""
          "svc-url" retryAgent =
        (some { readyDoc with actions := some l, status := some ("completed") },
          GenResponse.ok l)) :=
  generateActions_failure_frame (fun _ => none) id "m7" readyDoc readyTeams ""
    "svc-url" downAgent (ClickupTeamDoc.mk "tok" "space9") (by decide)
    (by decide) (by decide) rfl (by decide) (by decide) (by decide)
    (Or.inl ⟨"service unreachable", rfl⟩)

/-! The transcribe-meeting route (source: `POST` in
`/api/transcribe-meeting`). -/

/-- The uploaded audio file as seen by the route (name and size). -/
structure AudioFileInfo where
  name : String
  size : Nat
deriving DecidableEq

/-- Outcome of the fetch to the transcription service: success with the
parsed `ProcessedData`, a non-OK response, or the five-minute timeout. -/
inductive TranscribeOutcome where
  | timeout
  | httpErr (status : Nat) (body : String)
  | ok (result : JVal)

/-- Responses of the transcribe-meeting route: a 400 validation error
with a message, the catch-branch error response with its mapped status
code, or 200 with the processed data. -/
inductive TranscribeResult where
  | badRequest (message : String)
  | errorResp (status : Nat) (message : String) (error : String)
  | ok (data : JVal)

/-- JavaScript `typeof v === 'object' && v !== null`: object and array
values qualify. -/
def isJsObject : JVal → Bool
  | .obj _ => true
  | .arr _ => true
  | _ => false

/-- The transcribe-meeting route as a pure function, paired with a flag
recording whether the transcription service fetch was issued: validate
the presence of `audioFile` and `voiceprints`, reject a zero-size audio
file, parse and type-check the voiceprints JSON, and only then call the
service; the thrown service errors map to 502 (non-OK status) and 504
(timeout) in the catch branch. -/
def transcribeMeeting (audioFile : Option AudioFileInfo)
    (voiceprintsJson : Option String) (parseJson : String → Option JVal)
    (service : TranscribeOutcome) : TranscribeResult × Bool :=
  match audioFile with
  | none => (TranscribeResult.badRequest ("audioFile is required."), false)
  | some af =>
    if truthyOpt voiceprintsJson = false then
      (TranscribeResult.badRequest ("voiceprints are required."), false)
    else if af.size = 0 then
      (TranscribeResult.badRequest ("Audio file is empty."), false)
    else
      match parseJson (voiceprintsJson.getD "") with
      | none =>
        (TranscribeResult.badRequest ("Invalid voiceprints JSON format."), false)
      | some v =>
        if isJsObject v = false then
          (TranscribeResult.badRequest ("Invalid voiceprints JSON format."), false)
        else
          match service with
          | TranscribeOutcome.ok d => (TranscribeResult.ok d, true)
          | TranscribeOutcome.httpErr st body =>
            (TranscribeResult.errorResp 502 ("An internal server error occurred.")
              (("Transcription service failed with status ") ++ toString st
                ++ (": ") ++ body), true)
          | TranscribeOutcome.timeout =>
            (TranscribeResult.errorResp 504 ("An internal server error occurred.")
              ("Transcription service request timed out after 5 minutes"), true)

/-- C8 (counterexample): a request carrying a zero-length audio file but
no voiceprints field is rejected with `voiceprints are required.` — not
with the empty-audio error — because the voiceprints presence check runs
first; the service is still never invoked. -/
theorem transcribeMeeting_zero_audio_counterexample :
    transcribeMeeting (some (AudioFileInfo.mk "a.mp3" 0)) none
        (fun _ => none) TranscribeOutcome.timeout =
      (TranscribeResult.badRequest ("voiceprints are required."), false) ∧
    ("voiceprints are required." : String) ≠ "Audio file is empty." :=
  ⟨rfl, by decide⟩

/-- C8 (amended): a zero-length audio file never reaches the
transcription service (so neither transcription nor diarization runs),
and whenever the request's voiceprints field is present and non-empty the
response is the 400 `Audio file is empty.` error (the `EmptyAudio` case);
a missing voiceprints field is reported as `voiceprints are required.`
first instead. -/
theorem transcribeMeeting_empty_audio (af : AudioFileInfo)
    (voiceprintsJson : Option String) (parseJson : String → Option JVal)
    (service : TranscribeOutcome) (hsize : af.size = 0) :
    (transcribeMeeting (some af) voiceprintsJson parseJson service).2 = false ∧
    (truthyOpt voiceprintsJson = true →
      transcribeMeeting (some af) voiceprintsJson parseJson service =
        (TranscribeResult.badRequest ("Audio file is empty."), false)) := by
  constructor
  · cases htv : truthyOpt voiceprintsJson with
    | false => simp [transcribeMeeting, htv, hsize]
    | true => simp [transcribeMeeting, htv, hsize]
  · intro htv
    simp [transcribeMeeting, htv, hsize]

/-- C8 (witness): the amended theorem applied to a zero-size file with a
voiceprints field present. -/
theorem transcribeMeeting_empty_audio_witness :
    (transcribeMeeting (some (AudioFileInfo.mk "empty.wav" 0)) (some "vp")
        (fun _ => none) TranscribeOutcome.timeout).2 = false ∧
    (truthyOpt (some "vp") = true →
      transcribeMeeting (some (AudioFileInfo.mk "empty.wav" 0)) (some "vp")
          (fun _ => none) TranscribeOutcome.timeout =
        (TranscribeResult.badRequest ("Audio file is empty."), false)) :=
  transcribeMeeting_empty_audio (AudioFileInfo.mk "empty.wav" 0) (some "vp")
    (fun _ => none) TranscribeOutcome.timeout rfl

/-! The client upload flow (source: `UploadModal.handleUpload`). -/

/-- The modal's state entering `handleUpload`. -/
structure UploadForm where
  selectedFile : Option AudioFileInfo
  meetingTitle : String
  hasUser : Bool

/-- `String.prototype.trim`, written over the character list so it
evaluates inside the kernel: drop whitespace from both ends. -/
def jsTrim (s : String) : String :=
  String.mk
    (((s.data.dropWhile Char.isWhitespace).reverse.dropWhile
      Char.isWhitespace).reverse)

/-- Outcome of the `GET /api/teams/:teamId/voiceprints` fetch. -/
inductive FetchVoiceprints where
  | ok (voiceprints : JVal)
  | notOk

/-- Outcome of the `POST /api/transcribe-meeting` fetch, as a function of
the voiceprints JSON sent with it. -/
inductive FetchProcess where
  | ok (transcript : List TranscriptSegment) (speaker_map : SpeakerMap)
      (unresolved_speakers : List UnresolvedSpeaker)
  | notOk

/-- Outcome of the `POST /api/meetings` save fetch. -/
inductive FetchSave where
  | ok (meetingId : String)
  | notOk

/-- What the upload flow produced: the displayed error if any, the
voiceprints value sent to the transcription endpoint (`none` when that
endpoint was never called), the saved meeting id, and the navigation
target. -/
structure UploadOutcome where
  error : Option String
  transcribeCalledWith : Option JVal
  savedMeetingId : Option String
  navigatedTo : Option String

/-- `handleUpload` as a pure function of the form state, the uploader's
team id (`none` models a missing user document or missing `teamId`), and
the three fetch outcomes: validate, fetch the team voiceprints (throwing
aborts into the catch branch which displays the thrown message), send the
audio and voiceprints for processing, save, and navigate. -/
def handleUpload (form : UploadForm) (userTeamId : Option String)
    (voiceprintsRes : FetchVoiceprints) (processRes : JVal → FetchProcess)
    (saveRes : String → String → List TranscriptSegment → SpeakerMap →
      List UnresolvedSpeaker → FetchSave) : UploadOutcome :=
  if form.selectedFile.isNone || (jsTrim form.meetingTitle == "") || !form.hasUser then
    { error := some ("Please provide a title and select a file.")
      transcribeCalledWith := none, savedMeetingId := none, navigatedTo := none }
  else
    match userTeamId with
    | none =>
      { error := some ("Could not find your team information. Please try again.")
        transcribeCalledWith := none, savedMeetingId := none, navigatedTo := none }
    | some teamId =>
      match voiceprintsRes with
      | FetchVoiceprints.notOk =>
        { error := some ("Could not fetch team voiceprints.")
          transcribeCalledWith := none, savedMeetingId := none, navigatedTo := none }
      | FetchVoiceprints.ok voiceprints =>
        match processRes voiceprints with
        | FetchProcess.notOk =>
          { error := some ("Failed to process the audio recording.")
            transcribeCalledWith := some voiceprints
            savedMeetingId := none, navigatedTo := none }
        | FetchProcess.ok transcript speaker_map unresolved_speakers =>
          match saveRes teamId form.meetingTitle transcript speaker_map
              unresolved_speakers with
          | FetchSave.notOk =>
            { error := some ("Failed to save the meeting transcript.")
              transcribeCalledWith := some voiceprints
              savedMeetingId := none, navigatedTo := none }
          | FetchSave.ok meetingId =>
            { error := none
              transcribeCalledWith := some voiceprints
              savedMeetingId := some meetingId
              navigatedTo := some (("/dashboard/meetings/") ++ meetingId) }

/-- A valid upload form. -/
def uploadForm9 : UploadForm :=
  { selectedFile := some (AudioFileInfo.mk "m.mp3" 5)
    meetingTitle := "Standup"
    hasUser := true }

/-- A processing endpoint that would succeed if reached. -/
def process9 : JVal → FetchProcess := fun _ => FetchProcess.ok [] [] []

/-- A save endpoint that would succeed if reached. -/
def save9 : String → String → List TranscriptSegment → SpeakerMap →
    List UnresolvedSpeaker → FetchSave := fun _ _ _ _ _ => FetchSave.ok ("id1")

/-- C9 (counterexample): when the voiceprint fetch fails, the upload flow
does not proceed with an empty enrolled set: it aborts with the error
`Could not fetch team voiceprints.` and the transcription endpoint is
never called, refuting the claim that the invocation still produces a
transcript. -/
theorem handleUpload_vp_failure_aborts :
    ¬ ((handleUpload uploadForm9 (some "team1") FetchVoiceprints.notOk
          process9 save9).error = none ∧
       (handleUpload uploadForm9 (some "team1") FetchVoiceprints.notOk
          process9 save9).transcribeCalledWith = some (JVal.obj [])) ∧
    (handleUpload uploadForm9 (some "team1") FetchVoiceprints.notOk
        process9 save9).error = some ("Could not fetch team voiceprints.") ∧
    (handleUpload uploadForm9 (some "team1") FetchVoiceprints.notOk
        process9 save9).transcribeCalledWith.isNone = true := by
  refine ⟨fun h => Option.noConfusion h.1, rfl, rfl⟩

/-- C9 (amended): a failure of the enrolled-voiceprint fetch is fatal to
the upload flow: `handleUpload` stops with the error `Could not fetch
team voiceprints.` and the transcription service is never invoked. An
empty enrolled set is used only when the fetch succeeds and returns no
voiceprints, in which case the flow does proceed and sends whatever
voiceprints value it received (possibly the empty object) to the
transcription endpoint. -/
theorem handleUpload_vp_fetch (form : UploadForm) (userTeamId : Option String)
    (teamId : String) (processRes : JVal → FetchProcess)
    (saveRes : String → String → List TranscriptSegment → SpeakerMap →
      List UnresolvedSpeaker → FetchSave)
    (hfile : form.selectedFile.isNone = false)
    (htitle : (jsTrim form.meetingTitle == "") = false)
    (huser : form.hasUser = true) (hteam : userTeamId = some teamId) :
    handleUpload form userTeamId FetchVoiceprints.notOk processRes saveRes =
      { error := some ("Could not fetch team voiceprints.")
        transcribeCalledWith := none
        savedMeetingId := none
        navigatedTo := none } ∧
    (∀ voiceprints,
      (handleUpload form userTeamId (FetchVoiceprints.ok voiceprints)
          processRes saveRes).transcribeCalledWith = some voiceprints) := by
  constructor
  · simp [handleUpload, hfile, htitle, huser, hteam]
  · intro voiceprints
    cases hp : processRes voiceprints with
    | notOk => simp [handleUpload, hfile, htitle, huser, hteam, hp]
    | ok transcript speaker_map unresolved_speakers =>
      cases hs : saveRes teamId form.meetingTitle transcript speaker_map
          unresolved_speakers with
      | notOk => simp [handleUpload, hfile, htitle, huser, hteam, hp, hs]
      | ok meetingId => simp [handleUpload, hfile, htitle, huser, hteam, hp, hs]

/-- C9 (witness): the amended theorem applied to a valid form and a
known team id. -/
theorem handleUpload_vp_fetch_witness :
    handleUpload uploadForm9 (some "team1") FetchVoiceprints.notOk process9
        save9 =
      { error := some ("Could not fetch team voiceprints.")
        transcribeCalledWith := none
        savedMeetingId := none
        navigatedTo := none } ∧
    (∀ voiceprints,
      (handleUpload uploadForm9 (some "team1") (FetchVoiceprints.ok voiceprints)
          process9 save9).transcribeCalledWith = some voiceprints) :=
  handleUpload_vp_fetch uploadForm9 (some "team1") "team1" process9 save9
    rfl rfl rfl rfl

end LazyDevs
